import Mathlib

/-!
Verification of the visualizer MCP server (`src/server.py`).

The file shallowly embeds the pure core of the four tool handlers
(`draw_logic_flow`, `plot_data_chart`, `render_mindmap`, `generate_table`)
together with the helper encoders and lookup tables they share.
Strings are Lean `String`s (sequences of unicode scalar values, as in
Python); byte sequences are `List Nat` with every element below 256;
machine integers are `Int`/`Nat` (Python integers are unbounded, so no
wrap-around modelling is needed).  Python `dict`s that carry caller data
are modelled as insertion-ordered association lists.  The single network
probe performed by `draw_logic_flow` is modelled by an explicit probe
outcome parameter.  Python exceptions raised by the handler body are
modelled by an `Option` result.
-/

namespace Visualizer

/-! ### Generic string helpers -/

/-- The character `{` (written via its code so that it can also be used to
build strings that contain literal braces). -/
def lbrace : Char := Char.ofNat 123

/-- The character `}`. -/
def rbrace : Char := Char.ofNat 125

/-- Lower-case hexadecimal digit. -/
def hexLower (n : Nat) : Char := "0123456789abcdef".data.getD n '0'

/-- Upper-case hexadecimal digit. -/
def hexUpper (n : Nat) : Char := "0123456789ABCDEF".data.getD n '0'

/-- Python truthiness of an optional string argument (`if title:`):
`None` and the empty string are falsy. -/
def pyTruthy : Option String → Bool
  | none => false
  | some s => s ≠ ""

/-- Fuel-driven worker for Python `str.replace` with a non-empty pattern:
scan left to right, replacing every non-overlapping occurrence.  The fuel
is the length of the scanned list, which always suffices because each
step consumes at least one character. -/
def pyReplaceAux (pat rep : List Char) : Nat → List Char → List Char
  | _, [] => []
  | 0, s => s
  | n + 1, c :: rest =>
    if pat.isPrefixOf (c :: rest) then
      rep ++ pyReplaceAux pat rep n (List.drop (pat.length - 1) rest)
    else
      c :: pyReplaceAux pat rep n rest

/-- Python `s.replace(pat, rep)` (all occurrences, left to right,
non-overlapping; for the empty pattern Python interleaves `rep` around
every character). -/
def pyReplace (s pat rep : String) : String :=
  if pat.data.isEmpty then
    String.mk (rep.data ++ s.data.flatMap (fun c => c :: rep.data))
  else
    String.mk (pyReplaceAux pat.data rep.data s.data.length s.data)

/-! ### UTF-8 (Python `str.encode()` / `bytes.decode()`) -/

/-- UTF-8 encoding of one unicode scalar value, as a list of bytes. -/
def utf8EncodeChar (c : Char) : List Nat :=
  if c.toNat < 128 then [c.toNat]
  else if c.toNat < 2048 then [192 + c.toNat / 64, 128 + c.toNat % 64]
  else if c.toNat < 65536 then
    [224 + c.toNat / 4096, 128 + c.toNat / 64 % 64, 128 + c.toNat % 64]
  else
    [240 + c.toNat / 262144, 128 + c.toNat / 4096 % 64, 128 + c.toNat / 64 % 64,
      128 + c.toNat % 64]

/-- Python `s.encode()`: the UTF-8 bytes of a string. -/
def utf8Encode (s : String) : List Nat := s.data.flatMap utf8EncodeChar

/-- One step of strict UTF-8 decoding: split the leading scalar value off
a byte list, rejecting stray or missing continuation bytes, overlong
forms, surrogates and values above U+10FFFF. -/
def utf8SplitChar : List Nat → Option (Nat × List Nat)
  | [] => none
  | b :: rest =>
    if b < 128 then some (b, rest)
    else if b < 192 then none
    else match rest with
      | [] => none
      | b2 :: rest2 =>
        if 128 ≤ b2 ∧ b2 < 192 then
          if b < 224 then
            let n := (b - 192) * 64 + (b2 - 128)
            if 128 ≤ n then some (n, rest2) else none
          else match rest2 with
            | [] => none
            | b3 :: rest3 =>
              if 128 ≤ b3 ∧ b3 < 192 then
                if b < 240 then
                  let n := (b - 224) * 4096 + (b2 - 128) * 64 + (b3 - 128)
                  if 2048 ≤ n ∧ (n < 55296 ∨ 57344 ≤ n) then some (n, rest3)
                  else none
                else match rest3 with
                  | [] => none
                  | b4 :: rest4 =>
                    if (128 ≤ b4 ∧ b4 < 192) ∧ b < 248 then
                      let n := (b - 240) * 262144 + (b2 - 128) * 4096 +
                        (b3 - 128) * 64 + (b4 - 128)
                      if 65536 ≤ n ∧ n < 1114112 then some (n, rest4) else none
                    else none
              else none
        else none

/-- Fuel-driven worker for strict UTF-8 decoding; the fuel is the byte
count, which suffices because every scalar value consumes at least one
byte. -/
def utf8DecodeAux : Nat → List Nat → Option (List Char)
  | 0, bs => if bs = [] then some [] else none
  | fuel + 1, bs =>
    if bs = [] then some []
    else match utf8SplitChar bs with
      | none => none
      | some (n, rest) => (utf8DecodeAux fuel rest).map (fun cs => Char.ofNat n :: cs)

/-- Strict UTF-8 decoding (Python `bytes.decode()`). -/
def utf8Decode (bs : List Nat) : Option (List Char) := utf8DecodeAux bs.length bs

/-! ### URL-safe base64 (Python `base64.urlsafe_b64encode` / `..._b64decode`) -/

/-- The URL-safe base64 alphabet. -/
def b64Alphabet : List Char :=
  "ABCDEFGHIJKLMNOPQRSTUVWXYZabcdefghijklmnopqrstuvwxyz0123456789-_".data

/-- Character for a 6-bit value. -/
def sextetChar (n : Nat) : Char := b64Alphabet.getD n 'A'

/-- Inverse of `sextetChar` on the alphabet. -/
def charSextet (c : Char) : Option Nat := b64Alphabet.indexOf? c

/-- URL-safe base64 encoding of a byte list, with `=` padding, as
produced by `base64.urlsafe_b64encode`. -/
def b64Encode : List Nat → List Char
  | [] => []
  | [a] => [sextetChar (a / 4), sextetChar (a % 4 * 16), '=', '=']
  | [a, b] =>
    [sextetChar (a / 4), sextetChar (a % 4 * 16 + b / 16), sextetChar (b % 16 * 4), '=']
  | a :: b :: c :: rest =>
    sextetChar (a / 4) :: sextetChar (a % 4 * 16 + b / 16) ::
      sextetChar (b % 16 * 4 + c / 64) :: sextetChar (c % 64) :: b64Encode rest

/-- URL-safe base64 decoding of a correctly padded string, as accepted by
`base64.urlsafe_b64decode`; `=` padding may close the final quantum only. -/
def b64Decode : List Char → Option (List Nat)
  | [] => some []
  | c1 :: c2 :: c3 :: c4 :: rest =>
    if rest = [] ∧ c3 = '=' ∧ c4 = '=' then do
      let s1 ← charSextet c1
      let s2 ← charSextet c2
      some [s1 * 4 + s2 / 16]
    else if rest = [] ∧ c4 = '=' then do
      let s1 ← charSextet c1
      let s2 ← charSextet c2
      let s3 ← charSextet c3
      some [s1 * 4 + s2 / 16, s2 % 16 * 16 + s3 / 4]
    else do
      let s1 ← charSextet c1
      let s2 ← charSextet c2
      let s3 ← charSextet c3
      let s4 ← charSextet c4
      let tl ← b64Decode rest
      some ((s1 * 4 + s2 / 16) :: (s2 % 16 * 16 + s3 / 4) :: (s3 % 4 * 64 + s4) :: tl)
  | _ => none

/-! ### `encode_mermaid` and its inverse -/

/-- Function `encode_mermaid(diagram)`: `base64.urlsafe_b64encode(diagram.encode()).decode()`. -/
def encodeMermaid (diagram : String) : String :=
  String.mk (b64Encode (utf8Encode diagram))

/-- Decoding of the base64 payload segment of a generated URL: url-safe
base64 decoding followed by strict UTF-8 decoding (the mathematical
inverse of `encodeMermaid`). -/
def decodeMermaidPayload (seg : String) : Option String := do
  let bytes ← b64Decode seg.data
  let chars ← utf8Decode bytes
  some (String.mk chars)

end Visualizer

namespace Visualizer

set_option maxRecDepth 8000 in
lemma charSextet_sextetChar_all : ∀ n < 64, charSextet (sextetChar n) = some n := by decide

lemma charSextet_sextetChar (n : Nat) (h : n < 64) : charSextet (sextetChar n) = some n :=
  charSextet_sextetChar_all n h

set_option maxRecDepth 8000 in
lemma sextetChar_ne_pad_all : ∀ n < 64, sextetChar n ≠ '=' := by decide

lemma sextetChar_ne_pad (n : Nat) (h : n < 64) : sextetChar n ≠ '=' :=
  sextetChar_ne_pad_all n h

lemma b64Decode_b64Encode (bs : List Nat) (h : ∀ b ∈ bs, b < 256) :
    b64Decode (b64Encode bs) = some bs := by
  match bs with
  | [] => rfl
  | [a] =>
    have ha : a < 256 := h a (by simp)
    simp only [b64Encode, b64Decode]
    rw [if_pos ⟨trivial, trivial, trivial⟩,
      charSextet_sextetChar _ (by omega), charSextet_sextetChar _ (by omega)]
    simp only [Option.bind_eq_bind, Option.some_bind, Option.some.injEq, List.cons.injEq,
      eq_self_iff_true, and_true]
    omega
  | [a, b] =>
    have ha : a < 256 := h a (by simp)
    have hb : b < 256 := h b (by simp)
    simp only [b64Encode, b64Decode]
    rw [if_neg (fun hand => sextetChar_ne_pad _ (by omega) hand.2.1),
      if_pos ⟨trivial, trivial⟩,
      charSextet_sextetChar _ (by omega), charSextet_sextetChar _ (by omega),
      charSextet_sextetChar _ (by omega)]
    simp only [Option.bind_eq_bind, Option.some_bind, Option.some.injEq, List.cons.injEq,
      eq_self_iff_true, and_true]
    omega
  | a :: b :: c :: d :: rest =>
    have ha : a < 256 := h a (by simp)
    have hb : b < 256 := h b (by simp)
    have hc : c < 256 := h c (by simp)
    have ih := b64Decode_b64Encode (d :: rest) (fun x hx => h x (by simp at hx ⊢; tauto))
    simp only [b64Encode, b64Decode]
    rw [if_neg (fun hand => sextetChar_ne_pad _ (by omega) hand.2.1),
      if_neg (fun hand => sextetChar_ne_pad _ (by omega) hand.2),
      charSextet_sextetChar _ (by omega), charSextet_sextetChar _ (by omega),
      charSextet_sextetChar _ (by omega), charSextet_sextetChar _ (by omega), ih]
    simp only [Option.bind_eq_bind, Option.some_bind, Option.some.injEq, List.cons.injEq,
      eq_self_iff_true, and_true]
    omega
  | [a, b, c] =>
    have ha : a < 256 := h a (by simp)
    have hb : b < 256 := h b (by simp)
    have hc : c < 256 := h c (by simp)
    simp only [b64Encode, b64Decode]
    rw [if_neg (fun hand => sextetChar_ne_pad _ (by omega) hand.2.1),
      if_neg (fun hand => sextetChar_ne_pad _ (by omega) hand.2),
      charSextet_sextetChar _ (by omega), charSextet_sextetChar _ (by omega),
      charSextet_sextetChar _ (by omega), charSextet_sextetChar _ (by omega)]
    simp only [Option.bind_eq_bind, Option.some_bind, Option.some.injEq, List.cons.injEq,
      eq_self_iff_true, and_true]
    omega

end Visualizer

namespace Visualizer

lemma utf8EncodeChar_ne_nil (c : Char) : utf8EncodeChar c ≠ [] := by
  unfold utf8EncodeChar
  split_ifs <;> simp

lemma utf8EncodeChar_lt_256 (c : Char) : ∀ b ∈ utf8EncodeChar c, b < 256 := by
  have hv : c.toNat < 55296 ∨ (57343 < c.toNat ∧ c.toNat < 1114112) := c.valid
  unfold utf8EncodeChar
  split_ifs with h1 h2 h3 <;> intro b hb <;> simp at hb <;> omega

lemma utf8SplitChar_encodeChar (c : Char) (bs : List Nat) :
    utf8SplitChar (utf8EncodeChar c ++ bs) = some (c.toNat, bs) := by
  have hv : c.toNat < 55296 ∨ (57343 < c.toNat ∧ c.toNat < 1114112) := c.valid
  unfold utf8EncodeChar
  split_ifs with h1 h2 h3
  · simp only [List.cons_append, List.nil_append, utf8SplitChar]
    rw [if_pos h1]
  · simp only [List.cons_append, List.nil_append, utf8SplitChar]
    rw [if_neg (by omega), if_neg (by omega), if_pos (by omega), if_pos (by omega),
      if_pos (by omega)]
    simp only [Option.some.injEq, Prod.mk.injEq, eq_self_iff_true, and_true]
    omega
  · simp only [List.cons_append, List.nil_append, utf8SplitChar]
    rw [if_neg (by omega), if_neg (by omega), if_pos (by omega), if_neg (by omega),
      if_pos (by omega), if_pos (by omega), if_pos (by omega)]
    simp only [Option.some.injEq, Prod.mk.injEq, eq_self_iff_true, and_true]
    omega
  · simp only [List.cons_append, List.nil_append, utf8SplitChar]
    rw [if_neg (by omega), if_neg (by omega), if_pos (by omega), if_neg (by omega),
      if_pos (by omega), if_neg (by omega), if_pos (by omega), if_pos (by omega)]
    simp only [Option.some.injEq, Prod.mk.injEq, eq_self_iff_true, and_true]
    omega

end Visualizer

namespace Visualizer

lemma utf8DecodeAux_encode (cs : List Char) :
    ∀ fuel, (cs.flatMap utf8EncodeChar).length ≤ fuel →
      utf8DecodeAux fuel (cs.flatMap utf8EncodeChar) = some cs := by
  induction cs with
  | nil => intro fuel _; cases fuel <;> simp [utf8DecodeAux]
  | cons c cs ih =>
    intro fuel hfuel
    rw [List.flatMap_cons] at hfuel ⊢
    have hne : utf8EncodeChar c ≠ [] := utf8EncodeChar_ne_nil c
    have hlen : 1 ≤ (utf8EncodeChar c).length := by
      cases hx : utf8EncodeChar c with
      | nil => exact absurd hx hne
      | cons y ys => simp
    have happ : utf8EncodeChar c ++ cs.flatMap utf8EncodeChar ≠ [] := by
      simp [hne]
    rw [List.length_append] at hfuel
    cases fuel with
    | zero => omega
    | succ f =>
      simp only [utf8DecodeAux, if_neg happ]
      rw [utf8SplitChar_encodeChar]
      show Option.map (fun cs => Char.ofNat c.toNat :: cs)
          (utf8DecodeAux f (cs.flatMap utf8EncodeChar)) = some (c :: cs)
      rw [ih f (by omega)]
      simp [Char.ofNat_toNat]

lemma utf8Decode_utf8Encode (s : String) : utf8Decode (utf8Encode s) = some s.data := by
  unfold utf8Decode
  exact utf8DecodeAux_encode s.data _ le_rfl

lemma utf8Encode_lt_256 (s : String) : ∀ b ∈ utf8Encode s, b < 256 := by
  intro b hb
  unfold utf8Encode at hb
  rw [List.mem_flatMap] at hb
  obtain ⟨c, _, hbc⟩ := hb
  exact utf8EncodeChar_lt_256 c b hbc

/-- Decode after encode is the identity on the themed markup. -/
theorem decodeMermaidPayload_encodeMermaid (s : String) :
    decodeMermaidPayload (encodeMermaid s) = some s := by
  unfold decodeMermaidPayload encodeMermaid
  rw [show (String.mk (b64Encode (utf8Encode s))).data = b64Encode (utf8Encode s) from rfl]
  rw [b64Decode_b64Encode _ (utf8Encode_lt_256 s)]
  simp only [Option.bind_eq_bind, Option.some_bind]
  rw [utf8Decode_utf8Encode]
  cases s
  rfl

end Visualizer

namespace Visualizer

/-! ### Configuration (`Config`, read from the environment in the source) -/

/-- The `Config` class: environment-configurable parameters with their
stated defaults.  A field of this structure stands for the value the
corresponding environment lookup produced at import time. -/
structure Config where
  MERMAID_BASE_URL : String := "https://mermaid.ink"
  MERMAID_LIVE_URL : String := "https://mermaid.live"
  QUICKCHART_URL : String := "https://quickchart.io/chart"
  QUICKCHART_MAX_URL_LENGTH : Nat := 8000
  HTTP_TIMEOUT : Nat := 10
  DEFAULT_CHART_WIDTH : Int := 500
  DEFAULT_CHART_HEIGHT : Int := 300
deriving DecidableEq

/-- The configuration when no environment variable is set. -/
def defaultConfig : Config := {}

/-! ### Static lookup tables and their `get_*` accessors -/

/-- A chart theme record (`CHART_THEMES` values). -/
structure ChartTheme where
  background : String
  font : String
  grid : String
deriving DecidableEq

/-- A table style record (`TABLE_STYLES` values). -/
structure TableStyle where
  header_bg : String
  header_color : String
  highlight_bg : String
  border : String
deriving DecidableEq

/-- Table `CHART_THEMES` (insertion-ordered dict as an association list). -/
def CHART_THEMES : List (String × ChartTheme) :=
  [("light", ⟨"#ffffff", "#333333", "rgba(0, 0, 0, 0.1)"⟩),
   ("dark", ⟨"#1e1e1e", "#ffffff", "rgba(255, 255, 255, 0.1)"⟩),
   ("kakao", ⟨"#fee500", "#191919", "rgba(0, 0, 0, 0.1)"⟩)]

/-- Table `COLOR_PALETTES`. -/
def COLOR_PALETTES : List (String × List String) :=
  [("default",
    ["rgba(54, 162, 235, 0.7)", "rgba(255, 99, 132, 0.7)",
     "rgba(75, 192, 192, 0.7)", "rgba(255, 206, 86, 0.7)",
     "rgba(153, 102, 255, 0.7)", "rgba(255, 159, 64, 0.7)"]),
   ("pastel",
    ["rgba(174, 198, 207, 0.7)", "rgba(255, 179, 186, 0.7)",
     "rgba(186, 255, 201, 0.7)", "rgba(255, 255, 186, 0.7)",
     "rgba(186, 225, 255, 0.7)", "rgba(255, 198, 255, 0.7)"]),
   ("vibrant",
    ["rgba(0, 123, 255, 0.8)", "rgba(220, 53, 69, 0.8)",
     "rgba(40, 167, 69, 0.8)", "rgba(255, 193, 7, 0.8)",
     "rgba(111, 66, 193, 0.8)", "rgba(253, 126, 20, 0.8)"])]

/-- Table `TABLE_STYLES`. -/
def TABLE_STYLES : List (String × TableStyle) :=
  [("default", ⟨"#4CAF50", "white", "#E3F2FD", "#ddd"⟩),
   ("dark", ⟨"#333333", "white", "#444444", "#555555"⟩),
   ("kakao", ⟨"#fee500", "#191919", "#fff9c4", "#e0e0e0"⟩)]

/-- Python `dict` lookup (`d.get(k)` without default): first entry with
the given key. -/
def dictLookup {α : Type} (d : List (String × α)) (k : String) : Option α :=
  (d.find? (fun p => p.1 == k)).map (fun p => p.2)

/-- Function `get_color_palette(name)`: `COLOR_PALETTES.get(name, COLOR_PALETTES["default"])`. -/
def getColorPalette (name : String) : List String :=
  (dictLookup COLOR_PALETTES name).getD ((dictLookup COLOR_PALETTES "default").getD [])

/-- Function `get_chart_theme(name)`: `CHART_THEMES.get(name, CHART_THEMES["light"])`. -/
def getChartTheme (name : String) : ChartTheme :=
  (dictLookup CHART_THEMES name).getD
    ((dictLookup CHART_THEMES "light").getD ⟨"", "", ""⟩)

/-- Function `get_table_style(name)`: `TABLE_STYLES.get(name, TABLE_STYLES["default"])`. -/
def getTableStyle (name : String) : TableStyle :=
  (dictLookup TABLE_STYLES name).getD
    ((dictLookup TABLE_STYLES "default").getD ⟨"", "", "", ""⟩)

/-! ### `draw_logic_flow` -/

/-- The theme directive line prepended to diagram markup: two percent
signs, an init block naming the theme, two percent signs (built by an
f-string in the source; braces and quotes appear escaped below). -/
def themeDirective (theme : String) : String :=
  "%%\x7binit: \x7b\x27theme\x27: \x27" ++ theme ++ "\x27\x7d\x7d%%"

/-- Outcome of the single reachability probe (`client.head(image_url)`):
either an HTTP status code, or any transport error / timeout / other
exception raised by the request. -/
inductive ProbeOutcome where
  | status (code : Nat)
  | failure
deriving DecidableEq

/-- Result record of `draw_logic_flow`. -/
structure DiagramResult where
  success : Bool
  type : String
  diagram_type : String
  title : Option String
  image_url : String
  edit_url : String
  accessible : Bool
  theme : String
deriving DecidableEq

/-- Handler `draw_logic_flow`, with the outcome of the network probe
passed in as an explicit parameter. -/
def drawLogicFlow (cfg : Config) (probe : ProbeOutcome) (diagram_code : String)
    (diagram_type : String) (theme : String) (title : Option String) : DiagramResult :=
  let themed_code := themeDirective theme ++ "\n" ++ diagram_code
  let encoded := encodeMermaid themed_code
  let image_url := cfg.MERMAID_BASE_URL ++ "/img/" ++ encoded
  let edit_url := cfg.MERMAID_LIVE_URL ++ "/edit#base64:" ++ encoded
  let accessible := match probe with
    | ProbeOutcome.status code => code == 200
    | ProbeOutcome.failure => false
  { success := true, type := "diagram", diagram_type := diagram_type, title := title,
    image_url := image_url, edit_url := edit_url, accessible := accessible, theme := theme }

/-! ### `render_mindmap` -/

/-- A branch object: a dict with optional `name` and `children` keys
(read with `branch.get("name", "")` and `branch.get("children", [])`). -/
structure Branch where
  name : Option String
  children : Option (List String)
deriving DecidableEq

/-- The lines contributed by one branch of the mindmap outline. -/
def branchLines (b : Branch) : List String :=
  ("    " ++ b.name.getD "") :: (b.children.getD []).map (fun child => "      " ++ child)

/-- The full mindmap outline, line by line. -/
def mindmapLines (theme central_topic : String) (branches : List Branch) : List String :=
  [themeDirective theme, "mindmap", "  root((" ++ central_topic ++ "))"] ++
    branches.flatMap branchLines

/-- Python `title or central_topic` (`or` falls through on `None` and on
the empty string). -/
def pyOrElse (title : Option String) (fallback : String) : String :=
  match title with
  | none => fallback
  | some s => if s = "" then fallback else s

/-- Result record of `render_mindmap`. -/
structure MindmapResult where
  success : Bool
  type : String
  title : String
  image_url : String
  edit_url : String
  theme : String
  branch_count : Nat
deriving DecidableEq

/-- Handler `render_mindmap`. -/
def renderMindmap (cfg : Config) (central_topic : String) (branches : List Branch)
    (theme : String) (title : Option String) : MindmapResult :=
  let diagram_code := String.intercalate "\n" (mindmapLines theme central_topic branches)
  let encoded := encodeMermaid diagram_code
  { success := true, type := "mindmap", title := pyOrElse title central_topic,
    image_url := cfg.MERMAID_BASE_URL ++ "/img/" ++ encoded,
    edit_url := cfg.MERMAID_LIVE_URL ++ "/edit#base64:" ++ encoded,
    theme := theme, branch_count := branches.length }

end Visualizer

namespace Visualizer

/-! ### JSON serialization (`json.dumps` with default options) -/

/-- JSON value domain for caller-supplied dataset fields: the dataset
objects of the data model carry a label, a numeric data sequence and
optional color strings (plus other scalar metadata). -/
inductive JVal where
  | null
  | bool (b : Bool)
  | int (i : Int)
  | str (s : String)
  | intList (xs : List Int)
  | strList (xs : List String)
deriving DecidableEq

/-- Escaping of one character by `json.dumps` (default `ensure_ascii=True`):
quote and backslash, the five short escapes, `\uXXXX` for the other
control and non-ASCII characters, surrogate pairs beyond U+FFFF. -/
def jsonEscapeChar (c : Char) : List Char :=
  if c = '"' then ['\\', '"']
  else if c = '\\' then ['\\', '\\']
  else if c = '\n' then ['\\', 'n']
  else if c = '\r' then ['\\', 'r']
  else if c = '\t' then ['\\', 't']
  else if c = Char.ofNat 8 then ['\\', 'b']
  else if c = Char.ofNat 12 then ['\\', 'f']
  else if c.toNat < 32 ∨ (126 < c.toNat ∧ c.toNat < 65536) then
    ['\\', 'u', hexLower (c.toNat / 4096 % 16), hexLower (c.toNat / 256 % 16),
     hexLower (c.toNat / 16 % 16), hexLower (c.toNat % 16)]
  else if 65536 ≤ c.toNat then
    ['\\', 'u', hexLower ((55296 + (c.toNat - 65536) / 1024) / 4096 % 16),
     hexLower ((55296 + (c.toNat - 65536) / 1024) / 256 % 16),
     hexLower ((55296 + (c.toNat - 65536) / 1024) / 16 % 16),
     hexLower ((55296 + (c.toNat - 65536) / 1024) % 16),
     '\\', 'u', hexLower ((56320 + (c.toNat - 65536) % 1024) / 4096 % 16),
     hexLower ((56320 + (c.toNat - 65536) % 1024) / 256 % 16),
     hexLower ((56320 + (c.toNat - 65536) % 1024) / 16 % 16),
     hexLower ((56320 + (c.toNat - 65536) % 1024) % 16)]
  else [c]

/-- A JSON string literal with its surrounding quotes. -/
def jsonQuote (s : String) : List Char :=
  '"' :: s.data.flatMap jsonEscapeChar ++ ['"']

/-- Join serialized items with a separator (default `json.dumps` item
separator is a comma and a space). -/
def joinSep (sep : List Char) : List (List Char) → List Char
  | [] => []
  | [x] => x
  | x :: y :: rest => x ++ sep ++ joinSep sep (y :: rest)

/-- A serialized JSON array from serialized items. -/
def dumpArr (items : List (List Char)) : List Char :=
  '[' :: joinSep ", ".data items ++ [']']

/-- A serialized JSON object from serialized values (keys in insertion
order; default key separator is a colon and a space). -/
def dumpObj (fields : List (String × List Char)) : List Char :=
  lbrace :: joinSep ", ".data (fields.map fun f => jsonQuote f.1 ++ ':' :: ' ' :: f.2)
    ++ [rbrace]

/-- Serialization (`json.dumps`) of one dataset field value. -/
def jvalDump : JVal → List Char
  | JVal.null => "null".data
  | JVal.bool true => "true".data
  | JVal.bool false => "false".data
  | JVal.int i => (toString i).data
  | JVal.str s => jsonQuote s
  | JVal.intList xs => dumpArr (xs.map fun i => (toString i).data)
  | JVal.strList xs => dumpArr (xs.map fun s => jsonQuote s)

/-! ### Datasets (caller-supplied, insertion-ordered dicts) -/

/-- A caller-supplied dataset object. -/
abbrev Dataset : Type := List (String × JVal)

/-- Python `key in ds`. -/
def dsContains (ds : Dataset) (k : String) : Bool :=
  ds.any (fun p => p.1 == k)

/-- Python `ds[key]` / `ds.get(key)`. -/
def dsGet (ds : Dataset) (k : String) : Option JVal :=
  dictLookup ds k

/-- Python `ds[key] = v`: replace in place when the key is present,
append otherwise. -/
def dsSet (ds : Dataset) (k : String) (v : JVal) : Dataset :=
  if dsContains ds k then ds.map (fun p => if p.1 == k then (p.1, v) else p)
  else ds ++ [(k, v)]

/-- The in-place default-color loop body for dataset `i`: fill color from
the palette when absent, then border color derived from the fill color by
`replace("0.7", "1").replace("0.8", "1")`.  `none` models the
`AttributeError` Python raises when `.replace` is called on a fill color
that is not a string. -/
def assignDatasetColors (colors : List String) (i : Nat) (ds : Dataset) : Option Dataset :=
  let ds1 := if dsContains ds "backgroundColor" then ds
    else dsSet ds "backgroundColor" (JVal.str (colors.getD (i % colors.length) ""))
  if dsContains ds1 "borderColor" then some ds1
  else match dsGet ds1 "backgroundColor" with
    | some (JVal.str s) =>
      some (dsSet ds1 "borderColor" (JVal.str (pyReplace (pyReplace s "0.7" "1") "0.8" "1")))
    | _ => none

/-- The `for i, ds in enumerate(datasets)` color loop, mutating every
dataset in order. -/
def assignColors (colors : List String) : Nat → List Dataset → Option (List Dataset)
  | _, [] => some []
  | i, ds :: rest => do
    let d ← assignDatasetColors colors i ds
    let r ← assignColors colors (i + 1) rest
    some (d :: r)

/-! ### `plot_data_chart` -/

/-- Serialization (`json.dumps`) of one (already colored) dataset dict. -/
def datasetDump (ds : Dataset) : List Char :=
  dumpObj (ds.map fun p => (p.1, jvalDump p.2))

/-- The serialized `scales` options: empty for pie/doughnut/radar,
Cartesian axis options otherwise. -/
def scalesDump (chart_type : String) (tc : ChartTheme) : List Char :=
  if chart_type = "pie" ∨ chart_type = "doughnut" ∨ chart_type = "radar" then dumpObj []
  else dumpObj
    [("x", dumpObj [("ticks", dumpObj [("color", jsonQuote tc.font)]),
                    ("grid", dumpObj [("color", jsonQuote tc.grid)])]),
     ("y", dumpObj [("ticks", dumpObj [("color", jsonQuote tc.font)]),
                    ("grid", dumpObj [("color", jsonQuote tc.grid)])])]

/-- The serialized `plugins` options; the `title` entry is inserted after
construction when the title is truthy, so it serializes after `legend`. -/
def pluginsDump (tc : ChartTheme) (title : Option String) : List Char :=
  dumpObj (("legend", dumpObj [("labels", dumpObj [("color", jsonQuote tc.font)])]) ::
    (if pyTruthy title then
      [("title", dumpObj [("display", "true".data), ("text", jsonQuote (title.getD "")),
        ("color", jsonQuote tc.font), ("font", dumpObj [("size", "16".data)])])]
     else []))

/-- Serialization `json.dumps(chart_config)`. -/
def chartConfigDump (chart_type : String) (labels : List String) (datasets : List Dataset)
    (title : Option String) (tc : ChartTheme) : List Char :=
  dumpObj
    [("type", jsonQuote chart_type),
     ("data", dumpObj [("labels", dumpArr (labels.map jsonQuote)),
                       ("datasets", dumpArr (datasets.map datasetDump))]),
     ("options", dumpObj [("responsive", "false".data),
                          ("plugins", pluginsDump tc title),
                          ("scales", scalesDump chart_type tc)])]

/-- Characters `urllib.parse.quote` never encodes (letters, digits,
`_.-~`). -/
def safeChar (c : Char) : Bool :=
  ('A' ≤ c && c ≤ 'Z') || ('a' ≤ c && c ≤ 'z') || ('0' ≤ c && c ≤ '9') ||
    c == '_' || c == '.' || c == '-' || c == '~'

/-- Encoding `urllib.parse.quote_plus` with empty `safe` (as `urlencode` uses it):
space becomes `+`, safe characters pass through, everything else becomes
percent-encoded UTF-8 bytes with upper-case hex. -/
def quotePlus (s : String) : String :=
  String.mk (s.data.flatMap fun c =>
    if c = ' ' then ['+']
    else if safeChar c then [c]
    else (utf8EncodeChar c).flatMap fun b => ['%', hexUpper (b / 16), hexUpper (b % 16)])

/-- Encoding `urllib.parse.urlencode`. -/
def urlencode (params : List (String × String)) : String :=
  String.intercalate "&" (params.map fun p => quotePlus p.1 ++ "=" ++ quotePlus p.2)

/-- Result record of `plot_data_chart`; keys absent from the returned
dict are modelled as `none`. -/
structure ChartResult where
  success : Bool
  error : Option String
  type : Option String
  chart_type : Option String
  title : Option String
  image_url : Option String
  theme : Option String
  dimensions : Option (Int × Int)
deriving DecidableEq

/-- The `chart_url` built by `plot_data_chart` from the (already
colored) datasets. -/
def chartUrl (cfg : Config) (chart_type : String) (labels : List String)
    (datasets : List Dataset) (title : Option String) (theme : String)
    (width height : Int) : String :=
  let tc := getChartTheme theme
  let chart_json := String.mk (chartConfigDump chart_type labels datasets title tc)
  cfg.QUICKCHART_URL ++ "?" ++
    urlencode [("c", chart_json), ("w", toString width), ("h", toString height),
      ("bkg", tc.background)]

/-- Handler `plot_data_chart`.  `width`/`height` are `none` when the caller omits
them, in which case the hard-coded parameter defaults `500`/`300` from
the function signature apply.  The second component of the result is the
caller-visible final state of the `datasets` argument (the color loop
mutates the dicts of the caller in place). -/
def plotDataChart (cfg : Config) (chart_type : String) (labels : List String)
    (datasets : List Dataset) (title : Option String) (theme : String)
    (color_palette : String) (width height : Option Int) :
    Option (ChartResult × List Dataset) :=
  let w := width.getD 500
  let h := height.getD 300
  let colors := getColorPalette color_palette
  match assignColors colors 0 datasets with
  | none => none
  | some datasets1 =>
    let chart_url := chartUrl cfg chart_type labels datasets1 title theme w h
    if chart_url.length > cfg.QUICKCHART_MAX_URL_LENGTH then
      some ({ success := false, error := some "Chart data too large. Reduce data points.",
              type := none, chart_type := none, title := none, image_url := none,
              theme := none, dimensions := none }, datasets1)
    else
      some ({ success := true, error := none, type := some "chart",
              chart_type := some chart_type, title := title,
              image_url := some chart_url, theme := some theme,
              dimensions := some (w, h) }, datasets1)

/-- The border-color derivation as the spec words it: the trailing alpha
token (the text after the final space, up to the closing parenthesis) is
replaced by `1`. -/
def replaceTrailingAlpha (s : String) : String :=
  match s.data.reverse with
  | ')' :: rest => String.mk ((rest.dropWhile (fun c => c ≠ ' ')).reverse ++ ['1', ')'])
  | _ => s

end Visualizer

namespace Visualizer

/-! ### `generate_table` -/

/-- Result record of `generate_table`; keys absent from the returned dict
are modelled as `none`. -/
structure TableResult where
  success : Bool
  error : Option String
  type : Option String
  format : Option String
  title : Option String
  table : Option String
  dimensions : Option (Nat × Nat)
deriving DecidableEq

/-- The row-shape validation loop: index of the first row (from `i`)
whose length differs from the header count. -/
def firstBadRow (col_count : Nat) : Nat → List (List String) → Option Nat
  | _, [] => none
  | i, row :: rest =>
    if row.length ≠ col_count then some i else firstBadRow col_count (i + 1) rest

/-- Python `highlight_column == i` (`None == i` is `False`; otherwise
integer equality). -/
def hcEq (hc : Option Int) (i : Nat) : Bool :=
  match hc with
  | none => false
  | some k => k == (i : Int)

/-- The markdown separator row cells. -/
def mdSeparators (hc : Option Int) (col_count : Nat) : List String :=
  (List.range col_count).map (fun i => if hcEq hc i then ":---:" else "---")

/-- One markdown data row, bold-wrapping the highlighted cell (the
comprehension only runs when `highlight_column is not None`). -/
def mdRow (hc : Option Int) (row : List String) : List String :=
  match hc with
  | none => row
  | some _ => row.enum.map (fun p => if hcEq hc p.1 then "**" ++ p.2 ++ "**" else p.2)

/-- The markdown-format table string. -/
def mdTable (headers : List String) (rows : List (List String)) (title : Option String)
    (hc : Option Int) : String :=
  let lines0 := if pyTruthy title then ["### " ++ title.getD "" ++ "\n"] else []
  let lines1 := lines0 ++ ["| " ++ String.intercalate " | " headers ++ " |"]
  let lines2 := lines1 ++
    ["| " ++ String.intercalate " | " (mdSeparators hc headers.length) ++ " |"]
  let lines3 := lines2 ++
    rows.map (fun row => "| " ++ String.intercalate " | " (mdRow hc row) ++ " |")
  String.intercalate "\n" lines3

/-- One HTML header cell. -/
def htmlHeaderCell (s : TableStyle) (hc : Option Int) (i : Nat) (h : String) : String :=
  let bg := if hcEq hc i then s.highlight_bg else s.header_bg
  "    <th style=\"border: 1px solid " ++ s.border ++ "; padding: 8px; background-color: "
    ++ bg ++ "; color: " ++ s.header_color ++ ";\">" ++ h ++ "</th>"

/-- One HTML body cell. -/
def htmlBodyCell (s : TableStyle) (hc : Option Int) (i : Nat) (cell : String) : String :=
  let bg := if hcEq hc i then s.highlight_bg else "transparent"
  let weight := if hcEq hc i then "bold" else "normal"
  "      <td style=\"border: 1px solid " ++ s.border ++ "; padding: 8px; background-color: "
    ++ bg ++ "; font-weight: " ++ weight ++ ";\">" ++ cell ++ "</td>"

/-- The HTML-format table string. -/
def htmlTable (headers : List String) (rows : List (List String)) (title : Option String)
    (hc : Option Int) (s : TableStyle) : String :=
  let lines0 := if pyTruthy title then ["<h3>" ++ title.getD "" ++ "</h3>"] else []
  let lines1 := lines0 ++
    ["<table style=\"border-collapse: collapse; width: 100%;\">", "  <thead><tr>"]
  let lines2 := lines1 ++ headers.enum.map (fun p => htmlHeaderCell s hc p.1 p.2)
  let lines3 := lines2 ++ ["  </tr></thead><tbody>"]
  let lines4 := lines3 ++ rows.flatMap (fun row =>
    "    <tr>" :: row.enum.map (fun p => htmlBodyCell s hc p.1 p.2) ++ ["    </tr>"])
  let lines5 := lines4 ++ ["  </tbody></table>"]
  String.intercalate "\n" lines5

/-- Handler `generate_table`. -/
def generateTable (headers : List String) (rows : List (List String))
    (title : Option String) (format : String) (style : String)
    (highlight_column : Option Int) : TableResult :=
  if headers = [] ∨ rows = [] then
    { success := false, error := some "Headers and rows cannot be empty.",
      type := none, format := none, title := none, table := none, dimensions := none }
  else
    let col_count := headers.length
    match firstBadRow col_count 0 rows with
    | some i =>
      { success := false,
        error := some ("Row " ++ toString (i + 1) ++ " column count mismatch."),
        type := none, format := none, title := none, table := none, dimensions := none }
    | none =>
      let table_style := getTableStyle style
      let table_string :=
        if format = "markdown" then mdTable headers rows title highlight_column
        else htmlTable headers rows title highlight_column table_style
      { success := true, error := none, type := some "table", format := some format,
        title := title, table := some table_string,
        dimensions := some (col_count, rows.length) }

end Visualizer

namespace Visualizer

/-- C7: For every diagram request, `draw_logic_flow` returns a result with
`success = true`; the reachability probe outcome only drives the
`accessible` flag (true exactly for an HTTP 200 status, false for any
other status, network error or timeout) and is never reported as an
error. -/
theorem c7_probe_downgraded_to_flag (cfg : Config) (probe : ProbeOutcome)
    (diagram_code diagram_type theme : String) (title : Option String) :
    (drawLogicFlow cfg probe diagram_code diagram_type theme title).success = true ∧
    ((drawLogicFlow cfg probe diagram_code diagram_type theme title).accessible = true ↔
      probe = ProbeOutcome.status 200) := by
  constructor
  · rfl
  · cases probe with
    | status code => simp [drawLogicFlow]
    | failure => simp [drawLogicFlow]

/-- Witness for C7 at a concrete request whose probe raised a network
error: the call still succeeds and the flag is false. -/
theorem c7_probe_downgraded_to_flag_witness :
    (drawLogicFlow defaultConfig ProbeOutcome.failure "A-->B" "flowchart" "default"
      none).success = true ∧
    (drawLogicFlow defaultConfig ProbeOutcome.failure "A-->B" "flowchart" "default"
      none).accessible = false := by
  have h := c7_probe_downgraded_to_flag defaultConfig ProbeOutcome.failure "A-->B"
    "flowchart" "default" none
  refine ⟨h.1, ?_⟩
  cases hb : (drawLogicFlow defaultConfig ProbeOutcome.failure "A-->B" "flowchart"
      "default" none).accessible with
  | false => rfl
  | true => cases h.2.mp hb

end Visualizer

namespace Visualizer

/-- C9: theme, palette and style lookups are total: a present key yields
its entry, an absent key yields the named default entry (`light` theme,
`default` palette, `default` style); no lookup ever fails. -/
theorem c9_lookup_fallback (name : String) :
    (∀ v, dictLookup CHART_THEMES name = some v → getChartTheme name = v) ∧
    (dictLookup CHART_THEMES name = none →
      getChartTheme name = ⟨"#ffffff", "#333333", "rgba(0, 0, 0, 0.1)"⟩) ∧
    (∀ v, dictLookup COLOR_PALETTES name = some v → getColorPalette name = v) ∧
    (dictLookup COLOR_PALETTES name = none →
      getColorPalette name =
        ["rgba(54, 162, 235, 0.7)", "rgba(255, 99, 132, 0.7)",
         "rgba(75, 192, 192, 0.7)", "rgba(255, 206, 86, 0.7)",
         "rgba(153, 102, 255, 0.7)", "rgba(255, 159, 64, 0.7)"]) ∧
    (∀ v, dictLookup TABLE_STYLES name = some v → getTableStyle name = v) ∧
    (dictLookup TABLE_STYLES name = none →
      getTableStyle name = ⟨"#4CAF50", "white", "#E3F2FD", "#ddd"⟩) := by
  refine ⟨fun v h => ?_, fun h => ?_, fun v h => ?_, fun h => ?_, fun v h => ?_, fun h => ?_⟩
  · rw [getChartTheme, h]; rfl
  · rw [getChartTheme, h]; rfl
  · rw [getColorPalette, h]; rfl
  · rw [getColorPalette, h]; rfl
  · rw [getTableStyle, h]; rfl
  · rw [getTableStyle, h]; rfl

/-- Witness for C9: an unknown name falls back to each named default, and
a present name (`"dark"`) yields its own entry. -/
theorem c9_lookup_fallback_witness :
    getChartTheme "nope" = ⟨"#ffffff", "#333333", "rgba(0, 0, 0, 0.1)"⟩ ∧
    getColorPalette "nope" =
      ["rgba(54, 162, 235, 0.7)", "rgba(255, 99, 132, 0.7)",
       "rgba(75, 192, 192, 0.7)", "rgba(255, 206, 86, 0.7)",
       "rgba(153, 102, 255, 0.7)", "rgba(255, 159, 64, 0.7)"] ∧
    getTableStyle "nope" = ⟨"#4CAF50", "white", "#E3F2FD", "#ddd"⟩ ∧
    getChartTheme "dark" = ⟨"#1e1e1e", "#ffffff", "rgba(255, 255, 255, 0.1)"⟩ :=
  ⟨(c9_lookup_fallback "nope").2.1 (by decide),
   (c9_lookup_fallback "nope").2.2.2.1 (by decide),
   (c9_lookup_fallback "nope").2.2.2.2.2 (by decide),
   (c9_lookup_fallback "dark").1 ⟨"#1e1e1e", "#ffffff", "rgba(255, 255, 255, 0.1)"⟩
     (by decide)⟩

end Visualizer

namespace Visualizer

/-- C5: for every diagram request, the generated viewer URL is the viewer
base followed by `/img/` and the base64 segment encoding the themed
markup, and decoding that segment (url-safe base64, then UTF-8) yields
exactly the theme-directive line, a newline and the original markup. -/
theorem c5_payload_decode_roundtrip (cfg : Config) (probe : ProbeOutcome)
    (diagram_code diagram_type theme : String) (title : Option String) :
    (drawLogicFlow cfg probe diagram_code diagram_type theme title).image_url =
      cfg.MERMAID_BASE_URL ++ "/img/" ++
        encodeMermaid (themeDirective theme ++ "\n" ++ diagram_code) ∧
    (drawLogicFlow cfg probe diagram_code diagram_type theme title).edit_url =
      cfg.MERMAID_LIVE_URL ++ "/edit#base64:" ++
        encodeMermaid (themeDirective theme ++ "\n" ++ diagram_code) ∧
    decodeMermaidPayload (encodeMermaid (themeDirective theme ++ "\n" ++ diagram_code)) =
      some (themeDirective theme ++ "\n" ++ diagram_code) :=
  ⟨rfl, rfl, decodeMermaidPayload_encodeMermaid _⟩

/-- C8: the mindmap outline for the example request is exactly the six
expected lines; in general each branch contributes one 4-space-indented
name line followed by one 6-space-indented line per child, in input
order, and the generated URLs encode exactly this outline. -/
theorem c8_mindmap_outline :
    (mindmapLines "default" "Root" [⟨some "B1", some ["c1", "c2"]⟩] =
      ["%%\x7binit: \x7b\x27theme\x27: \x27default\x27\x7d\x7d%%", "mindmap",
       "  root((Root))", "    B1", "      c1", "      c2"]) ∧
    (∀ theme central_topic branches, mindmapLines theme central_topic branches =
      [themeDirective theme, "mindmap", "  root((" ++ central_topic ++ "))"] ++
        branches.flatMap (fun b =>
          ("    " ++ b.name.getD "") ::
            (b.children.getD []).map (fun child => "      " ++ child))) ∧
    (∀ cfg central_topic branches theme title,
      (renderMindmap cfg central_topic branches theme title).image_url =
        cfg.MERMAID_BASE_URL ++ "/img/" ++
          encodeMermaid (String.intercalate "\n" (mindmapLines theme central_topic branches)) ∧
      decodeMermaidPayload
          (encodeMermaid (String.intercalate "\n" (mindmapLines theme central_topic branches))) =
        some (String.intercalate "\n" (mindmapLines theme central_topic branches))) :=
  ⟨by decide, fun theme central branches => rfl,
   fun cfg central branches theme title => ⟨rfl, decodeMermaidPayload_encodeMermaid _⟩⟩

end Visualizer

namespace Visualizer

set_option maxRecDepth 100000 in
/-- C2 (code bug): `plot_data_chart` does NOT use the
environment-configurable `Config.DEFAULT_CHART_WIDTH` /
`Config.DEFAULT_CHART_HEIGHT`; its parameter defaults are the hard-coded
literals `500` / `300` from the function signature, whatever the
configured values are.  For every configured default (w, h), a request
that omits both dimensions is rendered and echoed at 500 x 300. -/
theorem c2_configured_defaults_ignored (w h : Int) :
    (Config.mk "https://mermaid.ink" "https://mermaid.live" "https://quickchart.io/chart"
        8000 10 w h).DEFAULT_CHART_WIDTH = w ∧
    (plotDataChart
        (Config.mk "https://mermaid.ink" "https://mermaid.live" "https://quickchart.io/chart"
          8000 10 w h)
        "bar" ["a"] [[("backgroundColor", JVal.str "b"), ("borderColor", JVal.str "c")]]
        none "light" "default" none none).map (fun r => r.1.dimensions) =
      some (some (500, 300)) :=
  ⟨rfl, rfl⟩

end Visualizer

namespace Visualizer

lemma firstBadRow_eq_some (n : Nat) (rows : List (List String)) :
    ∀ k i, i < rows.length → (∀ j, j < i → (rows.getD j []).length = n) →
      (rows.getD i []).length ≠ n → firstBadRow n k rows = some (k + i) := by
  induction rows with
  | nil => intro k i hi _ _; simp at hi
  | cons r rest ih =>
    intro k i hi hprev hbad
    cases i with
    | zero =>
      simp only [List.getD_cons_zero] at hbad
      simp [firstBadRow, hbad]
    | succ i =>
      have hr : r.length = n := hprev 0 (Nat.succ_pos i)
      simp only [List.getD_cons_succ] at hbad
      rw [firstBadRow, if_neg (by omega)]
      have := ih (k + 1) i (by simpa using hi)
        (fun j hj => by simpa using hprev (j + 1) (by omega)) hbad
      rw [this]
      congr 1
      omega

lemma firstBadRow_eq_none (n : Nat) (rows : List (List String))
    (hall : ∀ row ∈ rows, row.length = n) : ∀ k, firstBadRow n k rows = none := by
  induction rows with
  | nil => intro k; rfl
  | cons r rest ih =>
    intro k
    rw [firstBadRow, if_neg (by simp [hall r (by simp)])]
    exact ih (fun row hrow => hall row (by simp [hrow])) (k + 1)

/-- C6: `generate_table` fails with the descriptive message when headers
or rows are empty; with nonempty headers and rows it fails on a shape
mismatch, identifying the first offending row by its 1-based position;
in both failure cases no table output is produced. -/
theorem c6_validation_order (headers : List String) (rows : List (List String))
    (title : Option String) (format style : String) (hc : Option Int) :
    ((headers = [] ∨ rows = []) →
      generateTable headers rows title format style hc =
        { success := false, error := some "Headers and rows cannot be empty.",
          type := none, format := none, title := none, table := none,
          dimensions := none }) ∧
    (∀ i, i < rows.length → headers ≠ [] → rows ≠ [] →
      (∀ j, j < i → (rows.getD j []).length = headers.length) →
      (rows.getD i []).length ≠ headers.length →
      generateTable headers rows title format style hc =
        { success := false,
          error := some ("Row " ++ toString (i + 1) ++ " column count mismatch."),
          type := none, format := none, title := none, table := none,
          dimensions := none }) := by
  constructor
  · intro h
    rw [generateTable, if_pos h]
  · intro i hi hh hr hprev hbad
    rw [generateTable, if_neg (by tauto)]
    have hfb := firstBadRow_eq_some headers.length rows 0 i hi hprev hbad
    rw [Nat.zero_add] at hfb
    simp only [hfb]

/-- Witness for C6: the empty-input failure and a first-offending-row
failure (row 1) at concrete inputs. -/
theorem c6_validation_order_witness :
    generateTable [] [["x"]] none "markdown" "default" none =
      { success := false, error := some "Headers and rows cannot be empty.",
        type := none, format := none, title := none, table := none,
        dimensions := none } ∧
    generateTable ["A"] [["x", "y"]] none "markdown" "default" none =
      { success := false, error := some ("Row " ++ toString (0 + 1) ++ " column count mismatch."),
        type := none, format := none, title := none, table := none,
        dimensions := none } :=
  ⟨(c6_validation_order [] [["x"]] none "markdown" "default" none).1 (Or.inl rfl),
   (c6_validation_order ["A"] [["x", "y"]] none "markdown" "default" none).2 0
     (by decide) (by decide) (by decide) (fun j hj => absurd hj (by omega)) (by decide)⟩

end Visualizer

namespace Visualizer

set_option maxRecDepth 100000 in
/-- C3 counterexample: a dataset supplied without colors is mutated in
place — after the call the dataset of the caller has acquired a
`backgroundColor` (and `borderColor`) field, so the request entities are
not immutable. -/
theorem c3_datasets_mutated_counterexample :
    (plotDataChart defaultConfig "bar" ["a"] [[("label", JVal.str "s")]]
        none "light" "default" none none).map (fun r => r.2) ≠
      some [[("label", JVal.str "s")]] := by
  decide

lemma plotDataChart_cases (cfg : Config) (chart_type : String) (labels : List String)
    (datasets : List Dataset) (title : Option String) (theme color_palette : String)
    (width height : Option Int) (datasets1 : List Dataset)
    (hassign : assignColors (getColorPalette color_palette) 0 datasets = some datasets1) :
    plotDataChart cfg chart_type labels datasets title theme color_palette width height =
      if (chartUrl cfg chart_type labels datasets1 title theme (width.getD 500)
            (height.getD 300)).length > cfg.QUICKCHART_MAX_URL_LENGTH then
        some ({ success := false, error := some "Chart data too large. Reduce data points.",
                type := none, chart_type := none, title := none, image_url := none,
                theme := none, dimensions := none }, datasets1)
      else
        some ({ success := true, error := none, type := some "chart",
                chart_type := some chart_type, title := title,
                image_url := some (chartUrl cfg chart_type labels datasets1 title theme
                  (width.getD 500) (height.getD 300)),
                theme := some theme,
                dimensions := some (width.getD 500, height.getD 300) }, datasets1) := by
  rw [plotDataChart, hassign]

lemma assignColors_of_colors_present (colors : List String) (datasets : List Dataset)
    (h : ∀ ds ∈ datasets, dsContains ds "backgroundColor" = true ∧
      dsContains ds "borderColor" = true) :
    ∀ k, assignColors colors k datasets = some datasets := by
  induction datasets with
  | nil => intro k; rfl
  | cons ds rest ih =>
    intro k
    have hds := h ds (by simp)
    have h1 : assignDatasetColors colors k ds = some ds := by
      rw [assignDatasetColors]
      simp only [hds.1, if_true, hds.2, if_true]
    rw [assignColors, h1]
    rw [ih (fun d hd => h d (by simp [hd])) (k + 1)]
    rfl

/-- C3 (amended): a dataset object that already carries both
`backgroundColor` and `borderColor` is left unchanged by
`plot_data_chart`; datasets missing either color field are mutated in
place (the missing fields are appended), so immutability holds only for
fully colored datasets. -/
theorem c3_datasets_unchanged_when_fully_colored (cfg : Config) (chart_type : String)
    (labels : List String) (datasets : List Dataset) (title : Option String)
    (theme color_palette : String) (width height : Option Int)
    (h : ∀ ds ∈ datasets, dsContains ds "backgroundColor" = true ∧
      dsContains ds "borderColor" = true) :
    ∃ res, plotDataChart cfg chart_type labels datasets title theme color_palette
      width height = some (res, datasets) := by
  rw [plotDataChart_cases cfg chart_type labels datasets title theme color_palette
    width height datasets
    (assignColors_of_colors_present (getColorPalette color_palette) datasets h 0)]
  split
  · exact ⟨_, rfl⟩
  · exact ⟨_, rfl⟩

/-- Witness for the amended C3 theorem at a concrete fully colored
dataset. -/
theorem c3_datasets_unchanged_witness :
    ∃ res, plotDataChart defaultConfig "bar" ["a"]
        [[("backgroundColor", JVal.str "#111111"), ("borderColor", JVal.str "#222222")]]
        none "light" "default" none none =
      some (res, [[("backgroundColor", JVal.str "#111111"),
        ("borderColor", JVal.str "#222222")]]) :=
  c3_datasets_unchanged_when_fully_colored defaultConfig "bar" ["a"]
    [[("backgroundColor", JVal.str "#111111"), ("borderColor", JVal.str "#222222")]]
    none "light" "default" none none (by decide)

end Visualizer

namespace Visualizer

/-- C1: for every chart request (whose color fields, when present, are
strings, so the color loop completes), the result is reported against the
single `chart_url` the handler builds: if its length exceeds the
configured ceiling the result has `success = false`, no image URL and the
explanatory message; otherwise `success = true` and the image URL is
present. -/
theorem c1_url_length_gate (cfg : Config) (chart_type : String) (labels : List String)
    (datasets : List Dataset) (title : Option String) (theme color_palette : String)
    (width height : Option Int) (datasets1 : List Dataset)
    (hassign : assignColors (getColorPalette color_palette) 0 datasets = some datasets1) :
    ∃ res, plotDataChart cfg chart_type labels datasets title theme color_palette
        width height = some (res, datasets1) ∧
      ((chartUrl cfg chart_type labels datasets1 title theme (width.getD 500)
          (height.getD 300)).length > cfg.QUICKCHART_MAX_URL_LENGTH →
        res.success = false ∧ res.image_url = none ∧
          res.error = some "Chart data too large. Reduce data points.") ∧
      ((chartUrl cfg chart_type labels datasets1 title theme (width.getD 500)
          (height.getD 300)).length ≤ cfg.QUICKCHART_MAX_URL_LENGTH →
        res.success = true ∧ res.image_url = some (chartUrl cfg chart_type labels datasets1
          title theme (width.getD 500) (height.getD 300)) ∧ res.error = none) := by
  rw [plotDataChart_cases cfg chart_type labels datasets title theme color_palette
    width height datasets1 hassign]
  by_cases hlen : (chartUrl cfg chart_type labels datasets1 title theme (width.getD 500)
      (height.getD 300)).length > cfg.QUICKCHART_MAX_URL_LENGTH
  · rw [if_pos hlen]
    exact ⟨_, rfl, fun _ => ⟨rfl, rfl, rfl⟩, fun h2 => absurd hlen (by omega)⟩
  · rw [if_neg hlen]
    exact ⟨_, rfl, fun h2 => absurd h2 hlen, fun _ => ⟨rfl, rfl, rfl⟩⟩

end Visualizer

namespace Visualizer

set_option maxRecDepth 200000 in
/-- Witness for C1: a small request is under the default ceiling and gets
an image URL; the same request against a ceiling of 10 fails with no
image URL. -/
theorem c1_url_length_gate_witness :
    (∃ res, plotDataChart defaultConfig "bar" ["a"]
        [[("backgroundColor", JVal.str "b"), ("borderColor", JVal.str "c")]]
        none "light" "default" none none =
        some (res, [[("backgroundColor", JVal.str "b"), ("borderColor", JVal.str "c")]]) ∧
      res.success = true ∧ res.error = none) ∧
    (∃ res, plotDataChart { QUICKCHART_MAX_URL_LENGTH := 10 } "bar" ["a"]
        [[("backgroundColor", JVal.str "b"), ("borderColor", JVal.str "c")]]
        none "light" "default" none none =
        some (res, [[("backgroundColor", JVal.str "b"), ("borderColor", JVal.str "c")]]) ∧
      res.success = false ∧ res.image_url = none) := by
  constructor
  · obtain ⟨res, heq, hbig, hsmall⟩ := c1_url_length_gate defaultConfig "bar" ["a"]
      [[("backgroundColor", JVal.str "b"), ("borderColor", JVal.str "c")]]
      none "light" "default" none none
      [[("backgroundColor", JVal.str "b"), ("borderColor", JVal.str "c")]] (by decide)
    have h := hsmall (by decide)
    exact ⟨res, heq, h.1, h.2.2⟩
  · obtain ⟨res, heq, hbig, hsmall⟩ := c1_url_length_gate { QUICKCHART_MAX_URL_LENGTH := 10 }
      "bar" ["a"] [[("backgroundColor", JVal.str "b"), ("borderColor", JVal.str "c")]]
      none "light" "default" none none
      [[("backgroundColor", JVal.str "b"), ("borderColor", JVal.str "c")]] (by decide)
    have h := hbig (by decide)
    exact ⟨res, heq, h.1, h.2.1⟩

end Visualizer

namespace Visualizer

lemma find?_eq_none_of_not_contains (ds : Dataset) (k : String)
    (h : dsContains ds k = false) : ds.find? (fun p => p.1 == k) = none := by
  rw [List.find?_eq_none]
  intro x hx
  rw [dsContains, List.any_eq_false] at h
  simp [h x hx]

lemma dsGet_dsSet_same (ds : Dataset) (k : String) (v : JVal)
    (h : dsContains ds k = false) : dsGet (dsSet ds k v) k = some v := by
  rw [dsSet, if_neg (by simp [h]), dsGet, dictLookup, List.find?_append,
    find?_eq_none_of_not_contains ds k h]
  simp [List.find?]

lemma dsContains_dsSet_fresh_other (ds : Dataset) (k k2 : String) (v : JVal)
    (hk : dsContains ds k = false) (hne : (k == k2) = false)
    (h2 : dsContains ds k2 = false) : dsContains (dsSet ds k v) k2 = false := by
  rw [dsSet, if_neg (by simp [hk]), dsContains, List.any_append]
  rw [dsContains] at h2
  simp [h2, List.any, hne]

lemma dsGet_dsSet_fresh_prev (ds : Dataset) (k2 : String) (v : JVal) (k : String)
    (h2 : dsContains ds k2 = false) (w : JVal) (hget : dsGet ds k = some w) :
    dsGet (dsSet ds k2 v) k = some w := by
  rw [dsSet, if_neg (by simp [h2]), dsGet, dictLookup, List.find?_append]
  rw [dsGet, dictLookup] at hget
  obtain ⟨pr, hpr, hv⟩ := Option.map_eq_some'.mp hget
  rw [hpr]
  simp [hv]

lemma assignDatasetColors_fresh (colors : List String) (i : Nat) (ds : Dataset)
    (hbg : dsContains ds "backgroundColor" = false)
    (hbc : dsContains ds "borderColor" = false) :
    assignDatasetColors colors i ds =
      some (dsSet (dsSet ds "backgroundColor"
          (JVal.str (colors.getD (i % colors.length) "")))
        "borderColor"
        (JVal.str (pyReplace (pyReplace (colors.getD (i % colors.length) "") "0.7" "1")
          "0.8" "1"))) := by
  rw [assignDatasetColors]
  simp only [hbg, Bool.false_eq_true, if_false]
  rw [if_neg (by
    simp [dsContains_dsSet_fresh_other ds "backgroundColor" "borderColor" _ hbg
      (by decide) hbc])]
  rw [dsGet_dsSet_same ds "backgroundColor" _ hbg]

lemma assignColors_getD (colors : List String) (datasets : List Dataset) :
    ∀ (result : List Dataset) (k i : Nat), assignColors colors k datasets = some result →
      i < datasets.length →
      assignDatasetColors colors (k + i) (datasets.getD i []) = some (result.getD i []) := by
  induction datasets with
  | nil => intro result k i _ hi; simp at hi
  | cons ds rest ih =>
    intro result k i hassign hi
    rw [assignColors] at hassign
    cases hd : assignDatasetColors colors k ds with
    | none => rw [hd] at hassign; simp at hassign
    | some d =>
      rw [hd] at hassign
      cases hr : assignColors colors (k + 1) rest with
      | none => rw [hr] at hassign; simp at hassign
      | some r =>
        rw [hr] at hassign
        simp only [Option.bind_eq_bind, Option.some_bind, Option.some.injEq] at hassign
        cases i with
        | zero =>
          rw [← hassign]
          simpa using hd
        | succ i =>
          rw [← hassign]
          simp only [List.getD_cons_succ]
          have := ih r (k + 1) i hr (by simpa using hi)
          rw [show k + (i + 1) = k + 1 + i by omega]
          exact this

end Visualizer

namespace Visualizer

lemma getColorPalette_cases (name : String) :
    getColorPalette name =
        ["rgba(54, 162, 235, 0.7)", "rgba(255, 99, 132, 0.7)",
         "rgba(75, 192, 192, 0.7)", "rgba(255, 206, 86, 0.7)",
         "rgba(153, 102, 255, 0.7)", "rgba(255, 159, 64, 0.7)"] ∨
      getColorPalette name =
        ["rgba(174, 198, 207, 0.7)", "rgba(255, 179, 186, 0.7)",
         "rgba(186, 255, 201, 0.7)", "rgba(255, 255, 186, 0.7)",
         "rgba(186, 225, 255, 0.7)", "rgba(255, 198, 255, 0.7)"] ∨
      getColorPalette name =
        ["rgba(0, 123, 255, 0.8)", "rgba(220, 53, 69, 0.8)",
         "rgba(40, 167, 69, 0.8)", "rgba(255, 193, 7, 0.8)",
         "rgba(111, 66, 193, 0.8)", "rgba(253, 126, 20, 0.8)"] := by
  rw [getColorPalette]
  cases hfind : dictLookup COLOR_PALETTES name with
  | none => left; rfl
  | some v =>
    rw [dictLookup] at hfind
    obtain ⟨pr, hpr, hv⟩ := Option.map_eq_some'.mp hfind
    have hmem := List.mem_of_find?_eq_some hpr
    rw [COLOR_PALETTES] at hmem
    simp only [List.mem_cons, List.not_mem_nil, or_false] at hmem
    rcases hmem with h | h | h <;> rw [← hv, h] <;> simp
end Visualizer

namespace Visualizer

set_option maxRecDepth 40000 in
lemma palette_alpha_pal0 : ∀ j < 6,
    pyReplace (pyReplace ((["rgba(54, 162, 235, 0.7)", "rgba(255, 99, 132, 0.7)",
      "rgba(75, 192, 192, 0.7)", "rgba(255, 206, 86, 0.7)",
      "rgba(153, 102, 255, 0.7)", "rgba(255, 159, 64, 0.7)"].getD j "")) "0.7" "1")
        "0.8" "1" =
      replaceTrailingAlpha (["rgba(54, 162, 235, 0.7)", "rgba(255, 99, 132, 0.7)",
        "rgba(75, 192, 192, 0.7)", "rgba(255, 206, 86, 0.7)",
        "rgba(153, 102, 255, 0.7)", "rgba(255, 159, 64, 0.7)"].getD j "") := by
  decide

set_option maxRecDepth 40000 in
lemma palette_alpha_pal1 : ∀ j < 6,
    pyReplace (pyReplace ((["rgba(174, 198, 207, 0.7)", "rgba(255, 179, 186, 0.7)",
      "rgba(186, 255, 201, 0.7)", "rgba(255, 255, 186, 0.7)",
      "rgba(186, 225, 255, 0.7)", "rgba(255, 198, 255, 0.7)"].getD j "")) "0.7" "1")
        "0.8" "1" =
      replaceTrailingAlpha (["rgba(174, 198, 207, 0.7)", "rgba(255, 179, 186, 0.7)",
        "rgba(186, 255, 201, 0.7)", "rgba(255, 255, 186, 0.7)",
        "rgba(186, 225, 255, 0.7)", "rgba(255, 198, 255, 0.7)"].getD j "") := by
  decide

set_option maxRecDepth 40000 in
lemma palette_alpha_pal2 : ∀ j < 6,
    pyReplace (pyReplace ((["rgba(0, 123, 255, 0.8)", "rgba(220, 53, 69, 0.8)",
      "rgba(40, 167, 69, 0.8)", "rgba(255, 193, 7, 0.8)",
      "rgba(111, 66, 193, 0.8)", "rgba(253, 126, 20, 0.8)"].getD j "")) "0.7" "1")
        "0.8" "1" =
      replaceTrailingAlpha (["rgba(0, 123, 255, 0.8)", "rgba(220, 53, 69, 0.8)",
        "rgba(40, 167, 69, 0.8)", "rgba(255, 193, 7, 0.8)",
        "rgba(111, 66, 193, 0.8)", "rgba(253, 126, 20, 0.8)"].getD j "") := by
  decide

lemma palette_alpha (name : String) : ∀ j < 6,
    pyReplace (pyReplace ((getColorPalette name).getD j "") "0.7" "1") "0.8" "1" =
      replaceTrailingAlpha ((getColorPalette name).getD j "") := by
  rcases getColorPalette_cases name with h | h | h <;> rw [h]
  · exact palette_alpha_pal0
  · exact palette_alpha_pal1
  · exact palette_alpha_pal2

lemma getColorPalette_length (name : String) : (getColorPalette name).length = 6 := by
  rcases getColorPalette_cases name with h | h | h <;> rw [h] <;> rfl

end Visualizer

namespace Visualizer

/-- C4: a dataset at index `i` that supplies neither color receives fill
color `palette[i mod len(palette)]` and border color equal to that fill
color with the trailing alpha token replaced by `1`. -/
theorem c4_palette_colors (name : String) (datasets result : List Dataset) (i : Nat)
    (hi : i < datasets.length)
    (hassign : assignColors (getColorPalette name) 0 datasets = some result)
    (hbg : dsContains (datasets.getD i []) "backgroundColor" = false)
    (hbc : dsContains (datasets.getD i []) "borderColor" = false) :
    dsGet (result.getD i []) "backgroundColor" =
      some (JVal.str ((getColorPalette name).getD (i % (getColorPalette name).length) "")) ∧
    dsGet (result.getD i []) "borderColor" =
      some (JVal.str (replaceTrailingAlpha
        ((getColorPalette name).getD (i % (getColorPalette name).length) ""))) := by
  have hstep := assignColors_getD (getColorPalette name) datasets result 0 i hassign hi
  rw [Nat.zero_add, assignDatasetColors_fresh _ _ _ hbg hbc, Option.some.injEq] at hstep
  have hfresh2 : dsContains (dsSet (datasets.getD i []) "backgroundColor"
      (JVal.str ((getColorPalette name).getD (i % (getColorPalette name).length) "")))
      "borderColor" = false :=
    dsContains_dsSet_fresh_other _ _ _ _ hbg (by decide) hbc
  constructor
  · rw [← hstep]
    exact dsGet_dsSet_fresh_prev _ _ _ _ hfresh2 _
      (dsGet_dsSet_same _ _ _ hbg)
  · rw [← hstep, dsGet_dsSet_same _ _ _ hfresh2]
    have hj := palette_alpha name (i % (getColorPalette name).length)
      (by rw [getColorPalette_length]; omega)
    rw [hj]

set_option maxRecDepth 100000 in
/-- Witness for C4 at the example request: one uncolored dataset under
the default palette gets the first palette color and its solid border. -/
theorem c4_palette_colors_witness :
    dsGet (([[("label", JVal.str "s"), ("backgroundColor", JVal.str "rgba(54, 162, 235, 0.7)"),
        ("borderColor", JVal.str "rgba(54, 162, 235, 1)")]].getD 0 []) : Dataset)
        "backgroundColor" =
      some (JVal.str ((getColorPalette "default").getD
        (0 % (getColorPalette "default").length) "")) ∧
    dsGet (([[("label", JVal.str "s"), ("backgroundColor", JVal.str "rgba(54, 162, 235, 0.7)"),
        ("borderColor", JVal.str "rgba(54, 162, 235, 1)")]].getD 0 []) : Dataset)
        "borderColor" =
      some (JVal.str (replaceTrailingAlpha ((getColorPalette "default").getD
        (0 % (getColorPalette "default").length) ""))) :=
  c4_palette_colors "default" [[("label", JVal.str "s")]]
    [[("label", JVal.str "s"), ("backgroundColor", JVal.str "rgba(54, 162, 235, 0.7)"),
      ("borderColor", JVal.str "rgba(54, 162, 235, 1)")]] 0
    (by decide) (by decide) (by decide) (by decide)

end Visualizer

namespace Visualizer

lemma hcEq_none (i : Nat) : hcEq none i = false := rfl

lemma mdSeparators_none (n : Nat) : mdSeparators none n = List.replicate n "---" := by
  rw [mdSeparators]
  rw [List.map_congr_left (fun i _ => by rw [hcEq_none, if_neg Bool.false_ne_true])]
  rw [List.map_const', List.length_range]

lemma mdSeparators_eq_none (hc : Option Int) (n : Nat)
    (hf : ∀ i, i < n → hcEq hc i = false) : mdSeparators hc n = mdSeparators none n := by
  rw [mdSeparators, mdSeparators]
  exact List.map_congr_left (fun i hi => by
    rw [hf i (List.mem_range.mp hi), hcEq_none])

lemma mdRow_eq_none (hc : Option Int) (row : List String)
    (hf : ∀ i, i < row.length → hcEq hc i = false) : mdRow hc row = mdRow none row := by
  cases hc with
  | none => rfl
  | some k =>
    rw [mdRow, mdRow]
    rw [List.map_congr_left (fun p hp => by
      rw [hf p.1 (List.fst_lt_of_mem_enum hp), if_neg Bool.false_ne_true])]
    exact List.enum_map_snd row

lemma htmlHeaderCell_eq_none (s : TableStyle) (hc : Option Int) (i : Nat) (h : String)
    (hf : hcEq hc i = false) : htmlHeaderCell s hc i h = htmlHeaderCell s none i h := by
  rw [htmlHeaderCell, htmlHeaderCell, hf, hcEq_none]

lemma htmlBodyCell_eq_none (s : TableStyle) (hc : Option Int) (i : Nat) (cell : String)
    (hf : hcEq hc i = false) : htmlBodyCell s hc i cell = htmlBodyCell s none i cell := by
  rw [htmlBodyCell, htmlBodyCell, hf, hcEq_none]

lemma mdTable_eq_none (headers : List String) (rows : List (List String))
    (title : Option String) (hc : Option Int)
    (hshape : ∀ row ∈ rows, row.length = headers.length)
    (hf : ∀ i, i < headers.length → hcEq hc i = false) :
    mdTable headers rows title hc = mdTable headers rows title none := by
  rw [mdTable, mdTable, mdSeparators_eq_none hc headers.length hf]
  rw [List.map_congr_left (fun row hrow => by
    rw [mdRow_eq_none hc row (fun i hi => hf i (by rw [← hshape row hrow]; exact hi))])]

lemma htmlTable_eq_none (headers : List String) (rows : List (List String))
    (title : Option String) (hc : Option Int) (s : TableStyle)
    (hshape : ∀ row ∈ rows, row.length = headers.length)
    (hf : ∀ i, i < headers.length → hcEq hc i = false) :
    htmlTable headers rows title hc s = htmlTable headers rows title none s := by
  have hhead : List.map (fun p => htmlHeaderCell s hc p.1 p.2) headers.enum =
      List.map (fun p => htmlHeaderCell s none p.1 p.2) headers.enum := by
    apply List.map_congr_left
    intro p hp
    exact htmlHeaderCell_eq_none s hc p.1 p.2 (hf p.1 (List.fst_lt_of_mem_enum hp))
  have hbody : List.map (fun row =>
        "    <tr>" :: List.map (fun p => htmlBodyCell s hc p.1 p.2) row.enum ++
          ["    </tr>"]) rows =
      List.map (fun row =>
        "    <tr>" :: List.map (fun p => htmlBodyCell s none p.1 p.2) row.enum ++
          ["    </tr>"]) rows := by
    apply List.map_congr_left
    intro row hrow
    have hcells : List.map (fun p => htmlBodyCell s hc p.1 p.2) row.enum =
        List.map (fun p => htmlBodyCell s none p.1 p.2) row.enum := by
      apply List.map_congr_left
      intro p hp
      exact htmlBodyCell_eq_none s hc p.1 p.2
        (hf p.1 (by rw [← hshape row hrow]; exact List.fst_lt_of_mem_enum hp))
    rw [hcells]
  rw [htmlTable, List.flatMap_def, hhead, hbody, htmlTable, List.flatMap_def]

end Visualizer

namespace Visualizer

/-- C10: a valid table request whose `highlight_column` is `None` or not
a value in `[0, header count)` still succeeds, and highlights nothing:
the result coincides with the `highlight_column=None` result (the index
is only compared for equality, never used as an index), and in
particular every markdown separator cell is `---`. -/
theorem c10_out_of_range_highlight (headers : List String) (rows : List (List String))
    (title : Option String) (format style : String) (hc : Option Int)
    (hh : headers ≠ []) (hr : rows ≠ [])
    (hshape : ∀ row ∈ rows, row.length = headers.length)
    (hhc : ∀ k, hc = some k → k < 0 ∨ (headers.length : Int) ≤ k) :
    (generateTable headers rows title format style hc).success = true ∧
    generateTable headers rows title format style hc =
      generateTable headers rows title format style none ∧
    mdSeparators hc headers.length = List.replicate headers.length "---" := by
  have hf : ∀ i, i < headers.length → hcEq hc i = false := by
    intro i hi
    cases hc with
    | none => rfl
    | some k =>
      rcases hhc k rfl with hneg | hbig
      · rw [hcEq]
        rw [beq_eq_false_iff_ne]
        omega
      · rw [hcEq]
        rw [beq_eq_false_iff_ne]
        omega
  have hvalid : ¬(headers = [] ∨ rows = []) := by tauto
  have hfb := firstBadRow_eq_none headers.length rows hshape 0
  refine ⟨?_, ?_, ?_⟩
  · rw [generateTable, if_neg hvalid]
    simp only [hfb]
  · rw [generateTable, if_neg hvalid]
    simp only [hfb]
    rw [generateTable, if_neg hvalid]
    simp only [hfb]
    by_cases hfmt : format = "markdown"
    · subst hfmt
      rw [if_pos rfl, mdTable_eq_none headers rows title hc hshape hf, if_pos rfl]
    · rw [if_neg hfmt,
        htmlTable_eq_none headers rows title hc (getTableStyle style) hshape hf,
        if_neg hfmt]
  · rw [mdSeparators_eq_none hc headers.length hf, mdSeparators_none]

/-- Witness for C10: a 2-column table with `highlight_column = 7` (out of
range) succeeds and equals the unhighlighted table. -/
theorem c10_out_of_range_highlight_witness :
    (generateTable ["A", "B"] [["1", "2"]] none "markdown" "default" (some 7)).success
        = true ∧
    generateTable ["A", "B"] [["1", "2"]] none "markdown" "default" (some 7) =
      generateTable ["A", "B"] [["1", "2"]] none "markdown" "default" none ∧
    mdSeparators (some 7) 2 = List.replicate 2 "---" :=
  c10_out_of_range_highlight ["A", "B"] [["1", "2"]] none "markdown" "default" (some 7)
    (by decide) (by decide) (by decide)
    (fun k hk => by rw [Option.some.injEq] at hk; subst hk; right; decide)

end Visualizer
